import Mathlib

/-
Verification of the Primare serial protocol engine
(mopidy_primare/primare_serial.py) against its natural-language
specification.

Modelling conventions:
* A "byte" is a `Nat` (all values produced here are < 256; the source
  produces bytes via `binascii.unhexlify`, which yields values in 0..255).
* The source manipulates ASCII-hex strings (two hex characters per byte);
  an even-length hex string is in bijection with the byte sequence it
  denotes, so the model works directly on `List Nat` of byte values:
  string pair `'10'` is byte 16, string concatenation is list append,
  `binascii.unhexlify`/`hexlify` are the identity on this representation,
  `int(s, 16)` is the base-256 value of the byte list (`hexVal`), and a
  2-hex-character slice is one list element.
* Command templates contain the literal placeholder `'YY'`; they are
  represented as lists of `TByte` (a literal byte or the `yy` slot), so
  one `TByte` corresponds to two characters of the template string.
* Replies read back from the device are abstracted as inputs to the
  facade functions: `_send_command`'s returned hex string is passed in
  as the byte list `reply` ( `[]` models the empty string, which is the
  only falsy reply value).
-/

namespace Primare

/-- Direction byte of an outbound frame: `_write` emits `BYTE_WRITE`
(0x57) when its `cmd_type` argument is the string `'W'` and `BYTE_READ`
(0x52) for anything else (source lines 376-381). -/
inductive CmdType
  | W
  | R
deriving DecidableEq

/-- The direction byte prepended by `_write`: `BYTE_WRITE = '\x57'`,
`BYTE_READ = '\x52'`. -/
def dirByte : CmdType → Nat
  | CmdType.W => 0x57
  | CmdType.R => 0x52

/-- The escaping loop of `_write` (lines 362-369): walk the payload one
hex pair (= one byte) at a time and double every literal DLE (0x10). -/
def escape : List Nat → List Nat
  | [] => []
  | b :: bs => (if b = 16 then [16, 16] else [b]) ++ escape bs

/-- `_write` (lines 356-386): escape the payload, then frame it as
`STX(0x02) direction escaped-payload DLE(0x10) ETX(0x03)`. -/
def _write (cmd_type : CmdType) (data : List Nat) : List Nat :=
  0x02 :: dirByte cmd_type :: (escape data ++ [0x10, 0x03])

/-- The byte-accumulation loop of `_primare_reader` (lines 259-275):
read one byte at a time, appending to `bytes_read`, and stop as soon as
the last two accumulated bytes equal `BYTE_DLE_ETX = '\x10\x03'` (or the
stream is exhausted, modelling a read that returns no byte). -/
def readFrame (acc : List Nat) : List Nat → List Nat
  | [] => acc
  | c :: rest =>
    if (acc ++ [c]).drop ((acc ++ [c]).length - 2) = [16, 3] then acc ++ [c]
    else readFrame (acc ++ [c]) rest

/-- The un-escaping loop of `_primare_reader` (lines 283-295): zip the
frame body into non-overlapping pairs, collapse a pair `0x10 0x10` to a
single `0x10`, keep any other pair verbatim, and append the odd leftover
byte unchanged. -/
def unescapePairs : List Nat → List Nat
  | [] => []
  | [a] => [a]
  | a :: b :: rest => (if a = 16 ∧ b = 16 then [16] else [a, b]) ++ unescapePairs rest

/-- Frame splitting of `_primare_reader` (lines 279-295): the variable
code is the slice `POS_REPLY_VAR = slice(1, 2)` of the frame and the
data is the un-escaped slice `POS_REPLY_DATA = slice(2, -2)`. -/
def decodeFrame (frame : List Nat) : List Nat × List Nat :=
  ((frame.drop 1).take 1, unescapePairs (((frame.drop 2).dropLast).dropLast))

/-- One complete reader cycle applied to a byte stream: delimit a frame
by the `0x10 0x03` terminator, then split and un-escape it. -/
def primare_decode (stream : List Nat) : List Nat × List Nat :=
  decodeFrame (readFrame [] stream)

/-- The specification's wording of the escaping step: every literal
0x10 byte of the payload is doubled in place, all other bytes are kept
as they are.  Stated independently of `escape` so the two can be
compared. -/
def escape_spec (p : List Nat) : List Nat :=
  p.flatMap fun b => if b = 16 then [16, 16] else [b]

/-- `hasDleEtx p = true` iff some byte 0x10 of `p` is immediately
followed by a byte 0x03 (scanning adjacent positions). -/
def hasDleEtx : List Nat → Bool
  | [] => false
  | [_] => false
  | a :: b :: rest => if a = 16 ∧ b = 3 then true else hasDleEtx (b :: rest)

/-- Number of (possibly overlapping) two-byte occurrences of the
terminator sequence `0x10 0x03` in a byte list. -/
def countDleEtx : List Nat → Nat
  | [] => 0
  | [_] => 0
  | a :: b :: rest => (if a = 16 ∧ b = 3 then 1 else 0) + countDleEtx (b :: rest)

/-- One slot of a command template hex string: a literal byte (two hex
characters) or the two-character placeholder `'YY'`. -/
inductive TByte
  | lit (b : Nat)
  | yy
deriving DecidableEq

/-- One row of the `PRIMARE_CMD` table: `[INDEX_CMD, INDEX_VARIABLE,
INDEX_REPLY, INDEX_WAIT]` (source lines 62-65). -/
structure CmdEntry where
  cmd : CmdType
  data : List TByte
  reply : List TByte
  wait : Bool

/-- The keys of the `PRIMARE_CMD` dictionary (source lines 67-95). -/
inductive Cmd
  | power_toggle
  | power_set
  | input_set
  | input_next
  | input_prev
  | volume_set
  | volume_up
  | volume_down
  | balance_adjust
  | balance_set
  | mute_toggle
  | mute_set
  | dim_cycle
  | dim_set
  | verbose_toggle
  | verbose_set
  | menu_toggle
  | menu_set
  | remote_cmd
  | ir_input_toggle
  | ir_input_set
  | recall_factory_settings
  | inputname_current_get
  | inputname_specific_get
  | manufacturer_get
  | modelname_get
  | swversion_get
deriving DecidableEq

/-- The `PRIMARE_CMD` dictionary (source lines 67-95), transcribed row
by row; each two-hex-character group of a template string is one
`TByte`. -/
def PRIMARE_CMD : Cmd → CmdEntry
  | Cmd.power_toggle => ⟨CmdType.W, [TByte.lit 0x01, TByte.lit 0x00], [TByte.lit 0x01], true⟩
  | Cmd.power_set => ⟨CmdType.W, [TByte.lit 0x81, TByte.yy], [TByte.lit 0x01, TByte.yy], false⟩
  | Cmd.input_set => ⟨CmdType.W, [TByte.lit 0x82, TByte.yy], [TByte.lit 0x02, TByte.yy], true⟩
  | Cmd.input_next => ⟨CmdType.W, [TByte.lit 0x02, TByte.lit 0x01], [TByte.lit 0x02], true⟩
  | Cmd.input_prev => ⟨CmdType.W, [TByte.lit 0x02, TByte.lit 0xFF], [TByte.lit 0x02], true⟩
  | Cmd.volume_set => ⟨CmdType.W, [TByte.lit 0x83, TByte.yy], [TByte.lit 0x03, TByte.yy], true⟩
  | Cmd.volume_up => ⟨CmdType.W, [TByte.lit 0x03, TByte.lit 0x01], [TByte.lit 0x03], true⟩
  | Cmd.volume_down => ⟨CmdType.W, [TByte.lit 0x03, TByte.lit 0xFF], [TByte.lit 0x03], true⟩
  | Cmd.balance_adjust => ⟨CmdType.W, [TByte.lit 0x04, TByte.yy], [TByte.lit 0x04], true⟩
  | Cmd.balance_set => ⟨CmdType.W, [TByte.lit 0x84, TByte.yy], [TByte.lit 0x04, TByte.yy], true⟩
  | Cmd.mute_toggle => ⟨CmdType.W, [TByte.lit 0x09, TByte.lit 0x00], [TByte.lit 0x09], true⟩
  | Cmd.mute_set => ⟨CmdType.W, [TByte.lit 0x89, TByte.yy], [TByte.lit 0x09, TByte.yy], true⟩
  | Cmd.dim_cycle => ⟨CmdType.W, [TByte.lit 0x0A, TByte.lit 0x00], [TByte.lit 0x0A], true⟩
  | Cmd.dim_set => ⟨CmdType.W, [TByte.lit 0x0A, TByte.yy], [TByte.lit 0x0A, TByte.yy], true⟩
  | Cmd.verbose_toggle => ⟨CmdType.W, [TByte.lit 0x0D, TByte.lit 0x00], [TByte.lit 0x0D], true⟩
  | Cmd.verbose_set => ⟨CmdType.W, [TByte.lit 0x8D, TByte.yy], [TByte.lit 0x0D, TByte.yy], true⟩
  | Cmd.menu_toggle => ⟨CmdType.W, [TByte.lit 0x0E, TByte.lit 0x01], [TByte.lit 0x0E], true⟩
  | Cmd.menu_set => ⟨CmdType.W, [TByte.lit 0x8E, TByte.yy], [TByte.lit 0x0E, TByte.yy], true⟩
  | Cmd.remote_cmd => ⟨CmdType.W, [TByte.lit 0x0F, TByte.yy], [TByte.yy], true⟩
  | Cmd.ir_input_toggle => ⟨CmdType.W, [TByte.lit 0x12, TByte.lit 0x00], [TByte.lit 0x12], true⟩
  | Cmd.ir_input_set => ⟨CmdType.W, [TByte.lit 0x92, TByte.yy], [TByte.lit 0x12, TByte.yy], true⟩
  | Cmd.recall_factory_settings => ⟨CmdType.R, [TByte.lit 0x13, TByte.lit 0x00], [], false⟩
  | Cmd.inputname_current_get => ⟨CmdType.R, [TByte.lit 0x14, TByte.lit 0x00], [TByte.lit 0x14, TByte.yy], true⟩
  | Cmd.inputname_specific_get => ⟨CmdType.R, [TByte.lit 0x94, TByte.yy], [TByte.lit 0x94, TByte.yy], true⟩
  | Cmd.manufacturer_get => ⟨CmdType.R, [TByte.lit 0x15, TByte.lit 0x00], [TByte.lit 0x15], true⟩
  | Cmd.modelname_get => ⟨CmdType.R, [TByte.lit 0x16, TByte.lit 0x00], [TByte.lit 0x16], true⟩
  | Cmd.swversion_get => ⟨CmdType.R, [TByte.lit 0x17, TByte.lit 0x00], [TByte.lit 0x17], true⟩

/-- Substitute an operand byte for the `'YY'` placeholder of a template
slot (`data.replace('YY', option)`, line 337). -/
def TByte.subst (o : Nat) : TByte → Nat
  | TByte.lit b => b
  | TByte.yy => o

/-- The template after the optional `YY` substitution of `_send_command`
(lines 335-337).  Every dispatch in the source that passes no operand
names a command whose write template contains no `yy` slot, so the
substitution value used for `none` is never reached. -/
def substData : List TByte → Option Nat → List Nat
  | t, some o => t.map (TByte.subst o)
  | t, none => t.map (TByte.subst 0)

/-- The frame written on the wire by `_send_command` for a command and
optional operand (lines 332-342 followed by `_write`). -/
def sent_frame (c : Cmd) (o : Option Nat) : List Nat :=
  _write (PRIMARE_CMD c).cmd (substData (PRIMARE_CMD c).data o)

/-- The `PRIMARE_REPLY` table: hex-string key to last decoded payload.
Keys are represented like templates (`List TByte`), so the 2-character
variable code `'03'` is `[TByte.lit 3]` and the 4-character template
`'03YY'` is `[TByte.lit 3, TByte.yy]`; values default to the empty
payload, matching the initial table of empty strings (lines 97-113) and
letting Python's dict assignment create fresh keys. -/
def ReplyTable := List TByte → List Nat

/-- Assignment `PRIMARE_REPLY[k] = v`. -/
def table_set (t : ReplyTable) (k : List TByte) (v : List Nat) : ReplyTable :=
  fun x => if x = k then v else t x

/-- The initial `PRIMARE_REPLY` table: every slot holds the empty
payload. -/
def emptyTable : ReplyTable := fun _ => []

/-- The reader's table update `PRIMARE_REPLY[str.upper(variable_char)] =
data` (line 299): the slot keyed by the 2-hex-character code of the
variable byte receives the decoded payload. -/
def reader_store (t : ReplyTable) (var : Nat) (data : List Nat) : ReplyTable :=
  table_set t [TByte.lit var] data

/-- The reply consumption step of `_send_command` for a command with
`INDEX_WAIT = True` (lines 344-347): read `PRIMARE_REPLY[reply[0:2]]`
(the slot keyed by the first two hex characters of the reply template),
then assign `PRIMARE_REPLY[reply] = ''` (the slot keyed by the FULL
reply template string).  Returns the payload read and the table after
the assignment. -/
def consume_reply (c : Cmd) (t : ReplyTable) : List Nat × ReplyTable :=
  (t ((PRIMARE_CMD c).reply.take 1), table_set t (PRIMARE_CMD c).reply [])

/-- The mutable facade state of `PrimareTalker`: `_volume` (`None`
before calibration; an `int` holding whatever unit the last writer
used) and `_mute_state`. -/
structure TalkerState where
  volume : Option Int
  mute_state : Bool
deriving DecidableEq

/-- State right after `__init__` with no configured volume:
`_volume = None`, `_mute_state = False`. -/
def initState : TalkerState := { volume := none, mute_state := false }

/-- `VOLUME_LEVELS = 79` (line 156). -/
def VOLUME_LEVELS : Nat := 79

/-- `int(round(volume * VOLUME_LEVELS / 100.0))` (line 459).  For
`volume ≤ 100` the quotient `79 * volume / 100` is a rational with
denominator 100; the double nearest to it rounds to the same integer as
the exact rational (the only half-integer case, `volume = 50`, is the
exactly representable 39.5, and Python 2 `round` rounds halves away from
zero), so the expression equals `floor(79 * volume / 100 + 1/2)`,
computed here as a single natural division. -/
def target_primare_volume (volume : Nat) : Nat :=
  (volume * VOLUME_LEVELS * 2 + 100) / 200

/-- `int(reply, 16)` on the hex string denoted by a byte list: its
base-256 value. -/
def hexVal (reply : List Nat) : Nat :=
  reply.foldl (fun a b => a * 256 + b) 0

/-- `volume_get` (lines 433-449): returns the cached `_volume`
unchanged. -/
def volume_get (st : TalkerState) : Option Int :=
  st.volume

/-- The state/result logic of `volume_set` (lines 451-472): accept when
the reply is non-empty and decodes to the target or to one less (the
documented off-by-one device quirk); on acceptance cache the percent
argument itself.  In Python, `target - 1` is `-1` when the target is 0
and a hex reply is never negative, so the natural subtraction used here
accepts exactly the same replies. -/
def volume_set (st : TalkerState) (volume : Nat) (reply : List Nat) : TalkerState × Bool :=
  if reply ≠ [] ∧ (hexVal reply = target_primare_volume volume ∨
      hexVal reply = target_primare_volume volume - 1) then
    ({ st with volume := some (volume : Int) }, true)
  else
    (st, false)

/-- The frame `volume_set` sends: command `'volume_set'` with operand
`'%02X' % target_primare_volume` (lines 461-462; the target is at most
255 in every reachable call, so the format yields exactly one byte). -/
def volume_set_wire (volume : Nat) : List Nat :=
  sent_frame Cmd.volume_set (some (target_primare_volume volume))

/-- Exceptions raised by the Python runtime in `volume_up` /
`volume_down`. -/
inductive PyError
  | attributeError
  | typeError
deriving DecidableEq

/-- `volume_up` (lines 474-478): on a non-empty reply, `self._volume +=
1` (a `TypeError` when `_volume` is `None`); the final `return
self._volume.get()` always raises `AttributeError`, because neither
`int` nor `None` has a `get` method, so no call ever returns a value. -/
def volume_up (st : TalkerState) (reply : List Nat) : TalkerState × Except PyError Int :=
  if reply ≠ [] then
    match st.volume with
    | none => (st, Except.error PyError.typeError)
    | some v => ({ st with volume := some (v + 1) }, Except.error PyError.attributeError)
  else
    (st, Except.error PyError.attributeError)

/-- `volume_down` (lines 480-484): mirror image of `volume_up` with
`self._volume -= 1`. -/
def volume_down (st : TalkerState) (reply : List Nat) : TalkerState × Except PyError Int :=
  if reply ≠ [] then
    match st.volume with
    | none => (st, Except.error PyError.typeError)
    | some v => ({ st with volume := some (v - 1) }, Except.error PyError.attributeError)
  else
    (st, Except.error PyError.attributeError)

/-- The operand encoding of `mute_set`: `'01' if mute is True else
'00'` (line 518). -/
def encodeBool (b : Bool) : Nat := if b then 1 else 0

/-- `mute_get` (lines 501-508): returns the cached `_mute_state`. -/
def mute_get (st : TalkerState) : Bool :=
  st.mute_state

/-- The state/result logic of `mute_set` (lines 510-525): success and
`_mute_state = True` exactly when the reply string equals `'01'`,
regardless of the requested value; otherwise `_mute_state` is assigned
`False` and the call reports failure. -/
def mute_set (st : TalkerState) (_mute : Bool) (reply : List Nat) : TalkerState × Bool :=
  if reply = [1] then
    ({ st with mute_state := true }, true)
  else
    ({ st with mute_state := false }, false)

/-- The frame `mute_set` sends: command `'mute_set'` with the encoded
boolean operand (lines 518-519). -/
def mute_set_wire (mute : Bool) : List Nat :=
  sent_frame Cmd.mute_set (some (encodeBool mute))

/-- `_get_current_volume` (lines 223-232): issue `volume_down` then
`volume_up`; if both replies are non-empty return `int(reply, 16)` of
the final one, otherwise return 0.  The two replies are passed in as
arguments. -/
def _get_current_volume (reply_down reply_up : List Nat) : Nat :=
  if reply_down ≠ [] then
    (if reply_up ≠ [] then hexVal reply_up else 0)
  else 0

/-- The calibration assignment `self._volume =
self._get_current_volume()` in `_set_device_to_known_state`
(line 210). -/
def calibrate (st : TalkerState) (reply_down reply_up : List Nat) : TalkerState :=
  { st with volume := some ((_get_current_volume reply_down reply_up : Nat) : Int) }

/-- Modelled from the spec: the level-to-percent conversion
`round(level * 100 / 79)` that section 4.5 says calibration applies
before caching; no such conversion exists anywhere in the source. -/
def spec_percent_of_level (level : Nat) : Nat :=
  (level * 100 * 2 + VOLUME_LEVELS) / (2 * VOLUME_LEVELS)

/-- `inputname_specific_get` (lines 573-575): only an index in `[0, 7]`
sends the `'inputname_specific_get'` read command, with operand `'%02d'
% input` (for 0 ≤ input ≤ 7 the two decimal digits coincide with the
hex pair of the byte `input`), and returns the reply decoded from hex
to ASCII (the identity on the byte representation); any other index
falls off the function, returning Python's `None` without touching the
device.  The result pairs the frame sent with the value returned. -/
def inputname_specific_get (input : Int) (reply : List Nat) : Option (List Nat × List Nat) :=
  if 0 ≤ input ∧ input ≤ 7 then
    some (sent_frame Cmd.inputname_specific_get (some input.toNat), reply)
  else
    none

/-- A window starting at a byte other than 0x10 contributes no
terminator occurrence. -/
theorem countDleEtx_cons_of_ne (a : Nat) (L : List Nat) (h : a ≠ 16) :
    countDleEtx (a :: L) = countDleEtx L := by
  cases L with
  | nil => simp [countDleEtx]
  | cons b rest => simp [countDleEtx, h]

/-- A window whose second byte is not 0x03 contributes no terminator
occurrence. -/
theorem countDleEtx_cons_of_head_ne (a : Nat) (L : List Nat) (h : L.headD 0 ≠ 3) :
    countDleEtx (a :: L) = countDleEtx L := by
  cases L with
  | nil => simp [countDleEtx]
  | cons b rest =>
    simp only [List.headD_cons] at h
    simp [countDleEtx, h]

/-- Adjacency scanning ignores the first byte once its window is
checked. -/
theorem hasDleEtx_tail (a : Nat) (l : List Nat) (h : hasDleEtx (a :: l) = false) :
    hasDleEtx l = false := by
  cases l with
  | nil => simp [hasDleEtx]
  | cons c r =>
    rw [hasDleEtx] at h
    split at h
    · exact absurd h (by simp)
    · exact h

/-- In a payload free of adjacent `0x10 0x03`, a 0x10 head is not
followed by 0x03. -/
theorem hasDleEtx_cons16 (c : Nat) (l : List Nat) (h : hasDleEtx (16 :: c :: l) = false) :
    c ≠ 3 := by
  intro hc
  subst hc
  simp [hasDleEtx] at h

/-- Escaping a payload with no adjacent `0x10 0x03` and appending the
terminator yields exactly one occurrence of `0x10 0x03`. -/
theorem countDleEtx_escape_append (p : List Nat) (h : hasDleEtx p = false) :
    countDleEtx (escape p ++ [16, 3]) = 1 := by
  induction p with
  | nil => simp [escape, countDleEtx]
  | cons b bs ih =>
    by_cases hb : b = 16
    · subst hb
      have hbs : hasDleEtx bs = false := hasDleEtx_tail _ _ h
      have hhead : (escape bs ++ [16, 3]).headD 0 ≠ 3 := by
        cases bs with
        | nil => simp [escape]
        | cons c r =>
          have hc : c ≠ 3 := hasDleEtx_cons16 c r h
          by_cases hc16 : c = 16
          · subst hc16
            simp [escape]
          · simp [escape, hc16, hc]
      calc countDleEtx (escape (16 :: bs) ++ [16, 3])
          = countDleEtx (16 :: 16 :: (escape bs ++ [16, 3])) := by simp [escape]
        _ = countDleEtx (16 :: (escape bs ++ [16, 3])) := by simp [countDleEtx]
        _ = countDleEtx (escape bs ++ [16, 3]) :=
            countDleEtx_cons_of_head_ne _ _ hhead
        _ = 1 := ih hbs
    · have hbs : hasDleEtx bs = false := hasDleEtx_tail _ _ h
      calc countDleEtx (escape (b :: bs) ++ [16, 3])
          = countDleEtx (b :: (escape bs ++ [16, 3])) := by simp [escape, hb]
        _ = countDleEtx (escape bs ++ [16, 3]) := countDleEtx_cons_of_ne _ _ hb
        _ = 1 := ih hbs

/-- The escaping loop equals the specification's per-byte substitution:
every literal 0x10 is doubled in place, all other bytes kept. -/
theorem escape_eq_escape_spec (p : List Nat) : escape p = escape_spec p := by
  induction p with
  | nil => rfl
  | cons b bs ih => simp [escape, escape_spec, ih]

/-- C1.  The claim asserts `decode(encode(direction, payload)) ==
payload` for every payload, including those containing 0x10.  The code
violates it, contradicting the reader's own docstring (replace any
`\x10\x10` with `\x10`): un-escaping zips the frame body into
non-overlapping pairs, so a doubled 0x10 starting at an odd offset is
kept verbatim.  Encoding the payload `AA 10` produces the wire bytes
`02 57 AA 10 10 10 03`, and decoding them yields the payload
`AA 10 10`, not `AA 10`. -/
theorem decode_encode_roundtrip_fails :
    primare_decode (_write CmdType.W [0xAA, 0x10]) = ([0x57], [0xAA, 0x10, 0x10]) ∧
    [0xAA, 0x10, 0x10] ≠ [0xAA, 0x10] := by
  exact ⟨rfl, by decide⟩

/-- C2 counterexample.  For the payload `10 03`, escaping doubles the
0x10 and the wire becomes `02 57 10 10 03 10 03`: the second byte of
the doubled escape and the following literal 0x03 form a second
`0x10 0x03` occurrence besides the terminator, so the encoded bytes
contain two occurrences where the claim demands exactly one. -/
theorem encode_interior_terminator :
    countDleEtx (_write CmdType.W [0x10, 0x03]) = 2 := by
  decide

/-- C2 (amended).  Encoding doubles every literal 0x10 byte of the
payload in place (`escape` equals the per-byte substitution
`escape_spec`), and for every payload in which no 0x10 byte is
immediately followed by a 0x03 byte, the only two-byte `0x10 0x03`
sequence in the encoded wire bytes is the final terminator (the count
of occurrences is exactly one). -/
theorem escape_doubles_and_terminator_unique (c : CmdType) (p : List Nat)
    (h : hasDleEtx p = false) :
    escape p = escape_spec p ∧ countDleEtx (_write c p) = 1 := by
  refine ⟨escape_eq_escape_spec p, ?_⟩
  show countDleEtx (2 :: dirByte c :: (escape p ++ [16, 3])) = 1
  rw [countDleEtx_cons_of_ne 2 _ (by decide)]
  rw [countDleEtx_cons_of_ne (dirByte c) _ (by cases c <;> decide)]
  exact countDleEtx_escape_append p h

/-- Witness for C2: the payload `10 AA` contains 0x10 but no
`0x10 0x03` adjacency, and its encoding has exactly one terminator
occurrence. -/
theorem escape_doubles_and_terminator_unique_witness :
    hasDleEtx [0x10, 0xAA] = false ∧ countDleEtx (_write CmdType.W [0x10, 0xAA]) = 1 :=
  ⟨by decide, (escape_doubles_and_terminator_unique CmdType.W [0x10, 0xAA] (by decide)).2⟩

/-- C3.  For every percent in `[0, 100]`: the computed target
`round(percent * 79 / 100)` lies in `[0, 79]`; `volume_set(50)` emits
the wire bytes `02 57 83 28 10 03`; the call reports success exactly
when the reply is non-empty and decodes to the target or to the target
minus one, caching the percent argument itself on success; and on
failure the cached state is unchanged. -/
theorem volume_set_behavior (volume : Nat) (hv : volume ≤ 100)
    (st : TalkerState) (r : List Nat) :
    target_primare_volume volume ≤ 79 ∧
    volume_set_wire 50 = [0x02, 0x57, 0x83, 0x28, 0x10, 0x03] ∧
    (((volume_set st volume r).2 = true) ↔
      (r ≠ [] ∧ (hexVal r = target_primare_volume volume ∨
        hexVal r = target_primare_volume volume - 1))) ∧
    ((volume_set st volume r).2 = true →
      (volume_set st volume r).1 = { st with volume := some (volume : Int) }) ∧
    ((volume_set st volume r).2 = false → (volume_set st volume r).1 = st) := by
  refine ⟨?_, by decide, ?_, ?_, ?_⟩
  · have h1 : volume * VOLUME_LEVELS * 2 + 100 ≤ 15900 := by
      simp only [VOLUME_LEVELS]
      omega
    have h2 : (volume * VOLUME_LEVELS * 2 + 100) / 200 ≤ 15900 / 200 :=
      Nat.div_le_div_right h1
    simpa [target_primare_volume] using h2
  · unfold volume_set
    split <;> simp_all
  · unfold volume_set
    split <;> simp_all
  · unfold volume_set
    split <;> simp_all

/-- Witness for C3 at percent 50 with device reply `28`. -/
theorem volume_set_behavior_witness :
    target_primare_volume 50 ≤ 79 ∧ (volume_set initState 50 [0x28]).2 = true :=
  ⟨(volume_set_behavior 50 (by decide) initState [0x28]).1,
   (volume_set_behavior 50 (by decide) initState [0x28]).2.2.1.mpr (by decide)⟩

/-- C4.  The claim says calibration converts the device's internal
level to a percent before caching, so that a final reply of hex `32`
makes `volume_get()` report `round(50 * 100 / 79) = 63`.  The code
contradicts its own documentation (`volume_get` promises a linear 0-100
scale, and `volume_set` stores a percent in the same field): it caches
the raw internal level 50 and `volume_get()` returns 50, never applying
the conversion `spec_percent_of_level`.  The empty-reply default of 0
does hold. -/
theorem calibration_caches_internal_level :
    _get_current_volume [0x27] [0x32] = 50 ∧
    volume_get (calibrate initState [0x27] [0x32]) = some 50 ∧
    spec_percent_of_level 50 = 63 ∧
    volume_get (calibrate initState [0x27] [0x32]) ≠ some 63 ∧
    _get_current_volume [] [0x32] = 0 ∧
    _get_current_volume [0x27] [] = 0 := by
  exact ⟨rfl, rfl, rfl, by decide, rfl, rfl⟩

/-- C5 counterexample.  Dispatching `volume_set` (reply template
`'03YY'`) when the Reply Table slot `'03'` holds the payload `28` does
NOT clear that slot: the code assigns the empty string to the key
`'03YY'`, so the variable-code slot `'03'` still holds `28` after the
reply is consumed, where the claim demands the empty string. -/
theorem volume_set_variable_slot_not_cleared :
    (consume_reply Cmd.volume_set (reader_store emptyTable 3 [0x28])).2 [TByte.lit 3] = [0x28] ∧
    (consume_reply Cmd.volume_set (reader_store emptyTable 3 [0x28])).2 [TByte.lit 3] ≠ [] := by
  exact ⟨rfl, by decide⟩

/-- C5 (amended).  For every command whose descriptor has
`requires-reply` true, the dispatcher returns the Reply Table entry
keyed by the reply template's first two hex characters and then clears
the entry keyed by the FULL reply template string: the variable-code
slot itself is cleared exactly when the template is just the two-char
variable code, and is left unchanged when the template carries a `YY`
suffix. -/
theorem consume_clears_full_template_key (c : Cmd) (t : ReplyTable)
    (h : (PRIMARE_CMD c).wait = true) :
    (consume_reply c t).1 = t ((PRIMARE_CMD c).reply.take 1) ∧
    (consume_reply c t).2 (PRIMARE_CMD c).reply = [] ∧
    ((PRIMARE_CMD c).reply = (PRIMARE_CMD c).reply.take 1 →
      (consume_reply c t).2 ((PRIMARE_CMD c).reply.take 1) = []) ∧
    ((PRIMARE_CMD c).reply ≠ (PRIMARE_CMD c).reply.take 1 →
      (consume_reply c t).2 ((PRIMARE_CMD c).reply.take 1) =
        t ((PRIMARE_CMD c).reply.take 1)) := by
  cases c <;> simp_all [consume_reply, table_set, PRIMARE_CMD]

/-- Witness for C5 at `volume_set` over the initial table. -/
theorem consume_clears_full_template_key_witness :
    (consume_reply Cmd.volume_set emptyTable).2 (PRIMARE_CMD Cmd.volume_set).reply = [] :=
  (consume_clears_full_template_key Cmd.volume_set emptyTable rfl).2.1

/-- C6 counterexample.  With the mute flag cached `True`, a mismatched
reply `00` to `mute_set(True)` reports failure but OVERWRITES the
cached mute flag to `False`: the cached state is not left unchanged as
the claim requires. -/
theorem mute_set_mismatch_mutates_cache :
    (mute_set { volume := none, mute_state := true } true [0x00]).2 = false ∧
    (mute_set { volume := none, mute_state := true } true [0x00]).1 ≠
      { volume := none, mute_state := true } := by
  decide

/-- C6 (amended).  On a reply mismatch the facade reports failure
without raising; `volume_set` leaves the whole cached state unchanged,
and `mute_set` leaves the cached volume unchanged but overwrites the
cached mute flag to false whenever the reply differs from `01`. -/
theorem mismatch_reports_failure (st : TalkerState) (volume : Nat) (b : Bool)
    (r : List Nat) :
    (¬(r ≠ [] ∧ (hexVal r = target_primare_volume volume ∨
        hexVal r = target_primare_volume volume - 1)) →
      volume_set st volume r = (st, false)) ∧
    (r ≠ [1] →
      (mute_set st b r).2 = false ∧
      (mute_set st b r).1.volume = st.volume ∧
      (mute_set st b r).1.mute_state = false) := by
  constructor
  · intro h
    simp [volume_set, h]
  · intro h
    simp [mute_set, h]

/-- Witness for C6: reply `26` mismatches target 40 of percent 50, and
mismatches `01`. -/
theorem mismatch_reports_failure_witness :
    volume_set initState 50 [0x26] = (initState, false) ∧
    (mute_set initState true [0x26]).2 = false :=
  ⟨(mismatch_reports_failure initState 50 true [0x26]).1 (by decide),
   ((mismatch_reports_failure initState 50 true [0x26]).2 (by decide)).1⟩

/-- C7.  The claim says `volume_up()` / `volume_down()` return the
cached value reconverted to percent and clamped to `[0, 100]`.  The
code sends the relative command (`02 57 03 01 10 03` resp.
`02 57 03 FF 10 03`) and on a non-empty reply adjusts the cached value
by one, but then always raises: `return self._volume.get()` calls
`.get()` on an `int` (or on `None`), so no call ever returns a value,
let alone a reconverted, clamped percent. -/
theorem volume_up_down_always_raise :
    sent_frame Cmd.volume_up none = [0x02, 0x57, 0x03, 0x01, 0x10, 0x03] ∧
    sent_frame Cmd.volume_down none = [0x02, 0x57, 0x03, 0xFF, 0x10, 0x03] ∧
    volume_up { volume := some 40, mute_state := false } [0x28] =
      ({ volume := some 41, mute_state := false }, Except.error PyError.attributeError) ∧
    volume_down { volume := some 40, mute_state := false } [0x27] =
      ({ volume := some 39, mute_state := false }, Except.error PyError.attributeError) ∧
    volume_up { volume := some 40, mute_state := false } [] =
      ({ volume := some 40, mute_state := false }, Except.error PyError.attributeError) ∧
    volume_up initState [0x28] = (initState, Except.error PyError.typeError) := by
  exact ⟨rfl, rfl, rfl, rfl, rfl, rfl⟩

/-- C8 counterexample.  `mute_set(False)` answered by the reply `00`
(exactly the encoded boolean it sent) is REJECTED by the code, because
success is tested against the constant `'01'`, not against the encoded
value: success does not hold exactly when the reply equals the encoded
boolean. -/
theorem mute_set_false_matching_reply_rejected :
    ¬(((mute_set initState false [0x00]).2 = true) ↔ [0x00] = [encodeBool false]) := by
  decide

/-- C8 (amended).  `mute_set(b)` sends operand `01` for true and `00`
for false (`mute_set(true)` emits `02 57 89 01 10 03`), reports success
exactly when the reply equals `01` regardless of `b`, and after a
successful call `mute_get()` returns true (which coincides with `b`
only when `b` is true). -/
theorem mute_set_success_iff_reply_01 (st : TalkerState) (b : Bool) (r : List Nat) :
    mute_set_wire b = [0x02, 0x57, 0x89, encodeBool b, 0x10, 0x03] ∧
    (((mute_set st b r).2 = true) ↔ r = [0x01]) ∧
    ((mute_set st b r).2 = true → mute_get (mute_set st b r).1 = true) := by
  refine ⟨by cases b <;> rfl, ?_, ?_⟩
  · unfold mute_set
    split <;> simp_all
  · unfold mute_set
    split <;> simp_all [mute_get]

/-- Witness for C8: successful `mute_set(true)` with reply `01`. -/
theorem mute_set_success_iff_reply_01_witness :
    (mute_set initState true [0x01]).2 = true ∧
    mute_get (mute_set initState true [0x01]).1 = true :=
  ⟨(mute_set_success_iff_reply_01 initState true [0x01]).2.1.mpr rfl,
   (mute_set_success_iff_reply_01 initState true [0x01]).2.2 (by decide)⟩

/-- C10.  For an index outside `[0, 7]` no command is sent and the call
returns `None`; for an index inside `[0, 7]` the read command
`02 52 94 <index> 10 03` is sent (operand `'%02d' % index`, whose two
decimal digits equal the hex pair of the index for 0 ≤ index ≤ 7) and
the reply payload, decoded from hex to ASCII, is returned. -/
theorem inputname_specific_get_guarded (input : Int) (reply : List Nat) :
    (¬(0 ≤ input ∧ input ≤ 7) → inputname_specific_get input reply = none) ∧
    ((0 ≤ input ∧ input ≤ 7) →
      inputname_specific_get input reply =
        some ([0x02, 0x52, 0x94, input.toNat, 0x10, 0x03], reply)) := by
  constructor
  · intro h
    simp [inputname_specific_get, h]
  · intro h
    have h16 : input.toNat ≠ 16 := by omega
    simp [inputname_specific_get, h, sent_frame, substData, PRIMARE_CMD, _write,
      dirByte, escape, TByte.subst, h16]

/-- Witness for C10 at the out-of-range index 9 and the in-range
index 3. -/
theorem inputname_specific_get_guarded_witness :
    inputname_specific_get 9 [] = none ∧
    inputname_specific_get 3 [0x48, 0x69] =
      some ([0x02, 0x52, 0x94, (3 : Int).toNat, 0x10, 0x03], [0x48, 0x69]) :=
  ⟨(inputname_specific_get_guarded 9 []).1 (by decide),
   (inputname_specific_get_guarded 3 [0x48, 0x69]).2 (by decide)⟩

end Primare
